import Mathlib

/-!
Shallow embedding of `src/src-tauri/src/lib.rs` (claude-usage-dashboard,
Tauri backend): the polling coordinator, its fetch cycle `do_fetch`, the
shared `AppState`, the interval channel, the credentials-file watcher's
debounce loop, and the two usage fetchers' pure cores.

Modelling conventions:
- Rust `f64` values are modelled as `Rat` (the code performs only exact
  ratio arithmetic on them in the parts under verification).
- Rust `u64` is modelled as `Nat`; where overflow could matter the wrap is
  written explicitly as `% u64Mod`.
- Effectful operations (file reads, HTTP calls, the system clock) are passed
  in as an environment record `FetchEnv` holding each operation's result for
  the cycle under consideration; `do_fetch` consumes that record following
  the source's control flow exactly.
- Event emission (`app_handle.emit`) is modelled as an ordered list of
  `Event` values returned by the cycle.
-/

/-- Rust release-mode `u64` arithmetic wraps modulo `2 ^ 64`. -/
def u64Mod : Nat := 2 ^ 64

/-- Minimal model of `serde_json::Value`, enough for the fields the code
reads dynamically (`iguana_necktie`, and the GitHub billing response). -/
inductive Json where
  | null
  | bool (b : Bool)
  | num (q : Rat)
  | str (s : String)
  | arr (elems : List Json)
  | obj (fields : List (String × Json))

/-- `serde_json` indexing `value["key"]`: looks a key up in an object,
yielding `Null` when the key is missing or the value is not an object. -/
def Json.index (j : Json) (key : String) : Json :=
  match j with
  | .obj fields =>
    match fields.find? (fun kv => kv.1 == key) with
    | some kv => kv.2
    | none => .null
  | _ => .null

/-- `Value::as_f64`: numbers convert, everything else yields `None`. -/
def Json.as_f64 : Json → Option Rat
  | .num q => some q
  | _ => none

/-- `Value::as_str`: strings convert, everything else yields `None`. -/
def Json.as_str : Json → Option String
  | .str s => some s
  | _ => none

/-- `Value::as_array`: arrays convert, everything else yields `None`. -/
def Json.as_array : Json → Option (List Json)
  | .arr elems => some elems
  | _ => none

/-- `struct UsageMeter { utilization: f64, resets_at: Option<String> }`. -/
structure UsageMeter where
  utilization : Rat
  resets_at : Option String

/-- `struct ExtraUsage` of the primary usage snapshot. -/
structure ExtraUsage where
  is_enabled : Bool
  monthly_limit : Rat
  used_credits : Rat
  utilization : Rat

/-- `struct UsageData`: the primary (Claude) usage snapshot. `five_hour` and
`seven_day` are mandatory; every other field is `#[serde(default)]` optional. -/
structure UsageData where
  five_hour : UsageMeter
  seven_day : UsageMeter
  seven_day_oauth_apps : Option UsageMeter := none
  seven_day_opus : Option UsageMeter := none
  seven_day_sonnet : Option UsageMeter := none
  seven_day_cowork : Option UsageMeter := none
  iguana_necktie : Option Json := none
  extra_usage : Option ExtraUsage := none

/-- `struct GitHubConfig { username, token, monthly_limit }`. -/
structure GitHubConfig where
  username : String
  token : String
  monthly_limit : Rat

/-- `struct CopilotUsageItem { model: String, gross_quantity: f64 }`. -/
structure CopilotUsageItem where
  model : String
  gross_quantity : Rat

/-- `struct CopilotUsageData`: the secondary (Copilot) usage snapshot. -/
structure CopilotUsageData where
  total_requests : Rat
  monthly_limit : Rat
  utilization : Rat
  resets_at : String
  items : List CopilotUsageItem

/-- `struct CombinedUsageData { claude: UsageData, copilot: Option<CopilotUsageData> }`. -/
structure CombinedUsageData where
  claude : UsageData
  copilot : Option CopilotUsageData

/-- `struct TokenInfo { access_token: String, expires_at: u64 }`. -/
structure TokenInfo where
  access_token : String
  expires_at : Nat

/-- `struct AppState { latest_usage: Option<UsageData>, http_client }`. The
HTTP client handle is constructed once and never mutated, so only the
mutable `latest_usage` slot is modelled. -/
structure AppState where
  latest_usage : Option UsageData

/-- `AppState { latest_usage: None, .. }` as managed at process start. -/
def initial_app_state : AppState := { latest_usage := none }

/-- `get_usage` command: `state.latest_usage.clone().ok_or_else(|| "No usage
data available yet")`. -/
def get_usage (state : AppState) : Except String UsageData :=
  match state.latest_usage with
  | some d => Except.ok d
  | none => Except.error "No usage data available yet"

/-- `is_token_expired(expires_at)` with the clock reading `now_ms` passed in:
`now_ms + 30_000 >= expires_at` on `u64` values. -/
def is_token_expired (now_ms : Nat) (expires_at : Nat) : Bool :=
  decide (expires_at ≤ (now_ms + 30000) % u64Mod)

/-- `set_polling_interval` command, acting on the current value stored in the
interval watch channel: rejects values outside 10..=600, otherwise sends the
new value into the channel (`send` succeeds for the process lifetime because
the polling loop holds the receiver). Returns the channel value after the
call together with the command's result. -/
def set_polling_interval (interval : Nat) (seconds : Nat) : Nat × Except String Unit :=
  if seconds < 10 || seconds > 600 then
    (interval, Except.error "Polling interval must be between 10 and 600 seconds")
  else
    (seconds, Except.ok ())

/-- `let secs = *interval_rx.borrow();` — the duration the next wait uses is
the interval channel's current value, read at the top of each loop iteration. -/
def borrow_interval (channel_value : Nat) : Nat := channel_value

/-- `CombinedUsageData { claude: claude_data, copilot: copilot_result }`: the
snapshot combiner is the plain record constructor. -/
def combine (claude_data : UsageData) (copilot_result : Option CopilotUsageData) :
    CombinedUsageData :=
  { claude := claude_data, copilot := copilot_result }

/-- Rust `Result::ok()`: drops the error, keeping a successful value. -/
def resultOk {ε α : Type} : Except ε α → Option α
  | .ok a => some a
  | .error _ => none

/-- Rust `Result::is_ok()` as a `Bool`. -/
def resultIsOk {ε α : Type} : Except ε α → Bool
  | .ok _ => true
  | .error _ => false

/-- One `app_handle.emit(...)` call of a fetch cycle, in emission order. -/
inductive Event where
  | tokenStatus (status : String)
  | usageUpdate (payload : CombinedUsageData)
  | copilotOnlyUpdate (payload : CopilotUsageData)

/-- The results of the effectful operations one cycle of `do_fetch` may
perform: `read_token_info()`, the clock read inside `is_token_expired`,
`fetch_usage` (primary), `read_app_config().ok().and_then(|c| c.github)`,
and `fetch_copilot_usage` (secondary, consulted only when the GitHub
configuration is present). -/
structure FetchEnv where
  token_read : Except String TokenInfo
  now_ms : Nat
  claude_result : Except String UsageData
  github_config : Option GitHubConfig
  copilot_result : Except String CopilotUsageData

/-- `let copilot_result = if let Some(gh) = github_config {
fetch_copilot_usage(...).await.ok() } else { None };` — the secondary fetch
runs only when configured, and its failure is swallowed to `None`. -/
def secondary_result (env : FetchEnv) : Option CopilotUsageData :=
  match env.github_config with
  | some _ => resultOk env.copilot_result
  | none => none

/-- What one `do_fetch` cycle produced: the shared state after the cycle, the
events emitted in order, and whether each fetcher's call site was reached. -/
structure FetchOutcome where
  state : AppState
  events : List Event
  primary_invoked : Bool
  secondary_invoked : Bool

/-- `async fn do_fetch(app_handle)` acting on the shared `AppState`, with the
cycle's effect results supplied by `env`:
1. `read_token_info()` fails → emit `token-status = "error"`, return;
2. token expired → emit `token-status = "expired"`, return;
3. run the primary fetch, and the secondary fetch when configured;
4. primary `Ok` → emit `usage-update(combined)` then `token-status = "ok"`
   and overwrite `latest_usage`;
5. primary `Err` → emit `token-status = "fetch_error"`, then the secondary
   snapshot as `copilot-only-update` when one is available; state untouched. -/
def do_fetch (env : FetchEnv) (st : AppState) : FetchOutcome :=
  match env.token_read with
  | .error _ =>
    { state := st, events := [Event.tokenStatus "error"],
      primary_invoked := false, secondary_invoked := false }
  | .ok token_info =>
    if is_token_expired env.now_ms token_info.expires_at then
      { state := st, events := [Event.tokenStatus "expired"],
        primary_invoked := false, secondary_invoked := false }
    else
      let copilot_data := secondary_result env
      match env.claude_result with
      | .ok claude_data =>
        { state := { latest_usage := some claude_data },
          events := [Event.usageUpdate (combine claude_data copilot_data),
                     Event.tokenStatus "ok"],
          primary_invoked := true,
          secondary_invoked := env.github_config.isSome }
      | .error _ =>
        { state := st,
          events := Event.tokenStatus "fetch_error" ::
            (match copilot_data with
             | some c => [Event.copilotOnlyUpdate c]
             | none => []),
          primary_invoked := true,
          secondary_invoked := env.github_config.isSome }

/-- Did the cycle get a successful primary fetch (readable token, not
expired, primary `Ok`)? Exactly these cycles write `latest_usage`. -/
def primary_fetch_succeeded (env : FetchEnv) : Bool :=
  match env.token_read with
  | .error _ => false
  | .ok token_info =>
    !is_token_expired env.now_ms token_info.expires_at && resultIsOk env.claude_result

/-- The shared state after a sequence of fetch cycles. -/
def run_cycles (envs : List FetchEnv) (st : AppState) : AppState :=
  match envs with
  | [] => st
  | env :: rest => run_cycles rest (do_fetch env st).state

/-- The accumulation loop of `fetch_copilot_usage`: `for item in items`, an
item without a numeric `grossQuantity` is skipped; one with a numeric
`grossQuantity` is added to `total_requests`, and pushed onto the returned
items only when it also has a string `model`. -/
def accumulate_usage_items (items : List Json) : Rat × List CopilotUsageItem :=
  items.foldl
    (fun acc item =>
      match (item.index "grossQuantity").as_f64 with
      | none => acc
      | some quantity =>
        let total := acc.1 + quantity
        match (item.index "model").as_str with
        | some model =>
          (total, acc.2 ++ [{ model := model, gross_quantity := quantity }])
        | none => (total, acc.2))
    (0, [])

/-- The pure core of `fetch_copilot_usage`, given the parsed successful
response body `api_response` and the configured `monthly_limit`; `resets_at`
stands for the clock-dependent value of `calculate_next_month_reset()`.
Requires a `usageItems` array, then computes
`utilization = total_requests / monthly_limit * 100` with no guard on
`monthly_limit`. -/
def fetch_copilot_usage (api_response : Json) (monthly_limit : Rat)
    (resets_at : String) : Except String CopilotUsageData :=
  match (api_response.index "usageItems").as_array with
  | none => Except.error "Missing usageItems array"
  | some items =>
    let acc := accumulate_usage_items items
    Except.ok
      { total_requests := acc.1, monthly_limit := monthly_limit,
        utilization := acc.1 / monthly_limit * 100,
        resets_at := resets_at, items := acc.2 }

/-- The watcher's drain loop `while rx.recv_timeout(1s).is_ok() {}`: every
further raw event of the settling burst is received and discarded. -/
def drain_burst : List Unit → List Unit
  | [] => []
  | _ :: rest => drain_burst rest

/-- One iteration of the watcher loop over a settled burst of raw
modify/create events (the events that arrive within the 1-second debounce
window): `rx.recv()` on an empty closed channel fails (`none`, the loop
breaks); otherwise the remaining burst is drained and
`refresh_notify.notify_one()` is called — the `Nat` counts those calls — and
the iteration ends with the queue it leaves behind. -/
def watcher_iteration (pending : List Unit) : Option (Nat × List Unit) :=
  match pending with
  | [] => none
  | _ :: rest => some (1, drain_burst rest)

/-- Which arm of the `tokio::select!` in the polling loop fired. -/
inductive Trigger where
  | timerElapsed
  | refreshSignal
  | intervalChanged

/-- What one polling-loop iteration did: the shared state and emitted events
after it, whether `do_fetch` ran, and the seconds the next iteration's wait
reads from the interval channel. -/
structure StepOutcome where
  state : AppState
  events : List Event
  fetched : Bool
  next_secs : Nat

/-- One iteration of the dynamic polling loop, given the interval channel's
current value `channel_value` (after an interval change, the newly sent
value): the sleep-elapsed and refresh-notified arms run `do_fetch`; the
`interval_rx.changed()` arm just `continue`s, so the loop re-reads the
channel and waits with the new value. -/
def polling_step (env : FetchEnv) (st : AppState) (channel_value : Nat) :
    Trigger → StepOutcome
  | .timerElapsed =>
    let o := do_fetch env st
    { state := o.state, events := o.events, fetched := true,
      next_secs := borrow_interval channel_value }
  | .refreshSignal =>
    let o := do_fetch env st
    { state := o.state, events := o.events, fetched := true,
      next_secs := borrow_interval channel_value }
  | .intervalChanged =>
    { state := st, events := [], fetched := false,
      next_secs := borrow_interval channel_value }

/-! Concrete sample values used by the witness theorems. -/

/-- A sample primary meter. -/
def sample_meter : UsageMeter := { utilization := 12.5, resets_at := none }

/-- A sample primary snapshot (optional fields absent). -/
def sample_usage : UsageData :=
  { five_hour := sample_meter,
    seven_day := { utilization := 44.0, resets_at := none } }

/-- A token far from expiry at the sample clock reading `1000000`. -/
def live_token : TokenInfo := { access_token := "tok", expires_at := 999999999 }

/-- A token whose expiry is `now + 10000` ms at the sample clock reading
`1000000`, inside the 30-second margin. -/
def near_expiry_token : TokenInfo := { access_token := "tok", expires_at := 1010000 }

/-- A sample GitHub (secondary) configuration. -/
def sample_gh : GitHubConfig := { username := "u", token := "t", monthly_limit := 300 }

/-- A sample secondary snapshot. -/
def sample_copilot : CopilotUsageData :=
  { total_requests := 120, monthly_limit := 300, utilization := 40,
    resets_at := "2026-11-01T00:00:00+00:00", items := [] }

/-- A cycle whose credential read fails. -/
def cred_error_env : FetchEnv :=
  { token_read := Except.error "Failed to read credentials", now_ms := 1000000,
    claude_result := Except.error "unreached", github_config := none,
    copilot_result := Except.error "unreached" }

/-- A cycle whose token is inside the 30-second expiry margin. -/
def expired_env : FetchEnv :=
  { token_read := Except.ok near_expiry_token, now_ms := 1000000,
    claude_result := Except.error "unreached", github_config := none,
    copilot_result := Except.error "unreached" }

/-- A cycle whose primary fetch succeeds, with no secondary configured. -/
def ok_env : FetchEnv :=
  { token_read := Except.ok live_token, now_ms := 1000000,
    claude_result := Except.ok sample_usage, github_config := none,
    copilot_result := Except.error "unreached" }

/-- A cycle where both fetchers fail (secondary configured). -/
def both_fail_env : FetchEnv :=
  { token_read := Except.ok live_token, now_ms := 1000000,
    claude_result := Except.error "Claude API error", github_config := some sample_gh,
    copilot_result := Except.error "GitHub API status 500" }

/-- A cycle where the primary fails and the secondary succeeds. -/
def degraded_env : FetchEnv :=
  { token_read := Except.ok live_token, now_ms := 1000000,
    claude_result := Except.error "Claude API error", github_config := some sample_gh,
    copilot_result := Except.ok sample_copilot }

/-! Helper lemmas about one fetch cycle. -/

/-- A failed credential read aborts the cycle with only `token-status = "error"`. -/
theorem do_fetch_cred_error (env : FetchEnv) (st : AppState) (e : String)
    (h : env.token_read = Except.error e) :
    do_fetch env st =
      { state := st, events := [Event.tokenStatus "error"],
        primary_invoked := false, secondary_invoked := false } := by
  simp [do_fetch, h]

/-- An in-margin token aborts the cycle with only `token-status = "expired"`. -/
theorem do_fetch_expired (env : FetchEnv) (st : AppState) (t : TokenInfo)
    (h : env.token_read = Except.ok t)
    (hexp : is_token_expired env.now_ms t.expires_at = true) :
    do_fetch env st =
      { state := st, events := [Event.tokenStatus "expired"],
        primary_invoked := false, secondary_invoked := false } := by
  simp [do_fetch, h, hexp]

/-- A successful primary fetch emits `usage-update` then `token-status = "ok"`
and overwrites `latest_usage` with the fetched snapshot. -/
theorem do_fetch_primary_ok (env : FetchEnv) (st : AppState) (t : TokenInfo)
    (d : UsageData) (h : env.token_read = Except.ok t)
    (hexp : is_token_expired env.now_ms t.expires_at = false)
    (hc : env.claude_result = Except.ok d) :
    do_fetch env st =
      { state := { latest_usage := some d },
        events := [Event.usageUpdate (combine d (secondary_result env)),
                   Event.tokenStatus "ok"],
        primary_invoked := true,
        secondary_invoked := env.github_config.isSome } := by
  simp [do_fetch, h, hexp, hc]

/-- A failed primary fetch leaves the state, emits `token-status =
"fetch_error"`, then the secondary snapshot when one is available. -/
theorem do_fetch_primary_err (env : FetchEnv) (st : AppState) (t : TokenInfo)
    (e : String) (h : env.token_read = Except.ok t)
    (hexp : is_token_expired env.now_ms t.expires_at = false)
    (hc : env.claude_result = Except.error e) :
    do_fetch env st =
      { state := st,
        events := Event.tokenStatus "fetch_error" ::
          (match secondary_result env with
           | some c => [Event.copilotOnlyUpdate c]
           | none => []),
        primary_invoked := true,
        secondary_invoked := env.github_config.isSome } := by
  simp [do_fetch, h, hexp, hc]

/-- A cycle without a successful primary fetch leaves the shared state
exactly as it was. -/
theorem do_fetch_state_frame (env : FetchEnv) (st : AppState)
    (h : primary_fetch_succeeded env = false) : (do_fetch env st).state = st := by
  cases henv : env.token_read with
  | error e => rw [do_fetch_cred_error env st e henv]
  | ok t =>
    cases hexp : is_token_expired env.now_ms t.expires_at with
    | true => rw [do_fetch_expired env st t henv hexp]
    | false =>
      cases hc : env.claude_result with
      | error e => rw [do_fetch_primary_err env st t e henv hexp hc]
      | ok d =>
        exfalso
        simp [primary_fetch_succeeded, henv, hexp, hc, resultIsOk] at h

/-- A run of cycles none of which had a successful primary fetch leaves the
shared state exactly as it started. -/
theorem run_cycles_frame (envs : List FetchEnv) (st : AppState)
    (h : ∀ e ∈ envs, primary_fetch_succeeded e = false) :
    run_cycles envs st = st := by
  induction envs generalizing st with
  | nil => rfl
  | cons env rest ih =>
    rw [run_cycles, do_fetch_state_frame env st (h env (List.mem_cons_self env rest))]
    exact ih st (fun e he => h e (List.mem_cons_of_mem env he))

/-- The drain loop discards the whole remaining burst. -/
theorem drain_burst_eq_nil (pending : List Unit) : drain_burst pending = [] := by
  induction pending with
  | nil => rfl
  | cons x rest ih => rw [drain_burst, ih]

/-! The claims. -/

/-- Claim C1: last-known-good semantics of the shared state. `get_usage`
fails with "No usage data available yet" as long as no cycle has completed
with a successful primary fetch; every cycle whose primary fetch succeeds
overwrites `latest_usage` with the newly fetched primary snapshot; a cycle
that aborts or whose primary fetch fails leaves the state exactly as it was. -/
theorem last_known_good_semantics (envs : List FetchEnv) (env : FetchEnv)
    (st : AppState) :
    ((∀ e ∈ envs, primary_fetch_succeeded e = false) →
      get_usage (run_cycles envs initial_app_state) =
        Except.error "No usage data available yet") ∧
    (∀ d, env.claude_result = Except.ok d → primary_fetch_succeeded env = true →
      (do_fetch env st).state = { latest_usage := some d }) ∧
    (primary_fetch_succeeded env = false → (do_fetch env st).state = st) := by
  refine ⟨fun h => ?_, fun d hc hs => ?_, fun h => do_fetch_state_frame env st h⟩
  · rw [run_cycles_frame envs initial_app_state h]
    rfl
  · cases henv : env.token_read with
    | error e => simp [primary_fetch_succeeded, henv] at hs
    | ok t =>
      cases hexp : is_token_expired env.now_ms t.expires_at with
      | true => simp [primary_fetch_succeeded, henv, hexp] at hs
      | false => rw [do_fetch_primary_ok env st t d henv hexp hc]

/-- Witness for C1 at concrete cycles: a credential-error cycle leaves
`get_usage` failing; a successful primary fetch writes the snapshot; a cycle
where both fetchers fail leaves the previous snapshot in place. -/
theorem last_known_good_semantics_witness :
    get_usage (run_cycles [cred_error_env] initial_app_state) =
      Except.error "No usage data available yet" ∧
    (do_fetch ok_env { latest_usage := none }).state =
      { latest_usage := some sample_usage } ∧
    (do_fetch both_fail_env { latest_usage := some sample_usage }).state =
      { latest_usage := some sample_usage } := by
  refine ⟨(last_known_good_semantics [cred_error_env] ok_env initial_app_state).1 ?_,
          (last_known_good_semantics [] ok_env { latest_usage := none }).2.1
            sample_usage rfl rfl,
          (last_known_good_semantics [] both_fail_env
            { latest_usage := some sample_usage }).2.2 rfl⟩
  intro e he
  rw [List.mem_singleton] at he
  subst he
  rfl

/-- Claim C2: `set_polling_interval` accepts exactly 10..=600 seconds; an
accepted value becomes the interval channel's value, which the next wait
iteration reads; a rejected value returns the out-of-range error and leaves
the stored interval unchanged. -/
theorem set_polling_interval_bounds (interval seconds : Nat) :
    (10 ≤ seconds ∧ seconds ≤ 600 →
      set_polling_interval interval seconds = (seconds, Except.ok ()) ∧
      borrow_interval (set_polling_interval interval seconds).1 = seconds) ∧
    (seconds < 10 ∨ 600 < seconds →
      (set_polling_interval interval seconds).1 = interval ∧
      (set_polling_interval interval seconds).2 =
        Except.error "Polling interval must be between 10 and 600 seconds") := by
  constructor
  · rintro ⟨h10, h600⟩
    have hcond : ¬(seconds < 10 ∨ seconds > 600) := by omega
    simp [set_polling_interval, borrow_interval, hcond]
  · intro h
    have hcond : seconds < 10 ∨ seconds > 600 := h
    simp [set_polling_interval, hcond]

/-- Witness for C2: 120 is accepted and becomes the next wait's duration;
5 and 601 are rejected leaving the stored interval (60) unchanged. -/
theorem set_polling_interval_bounds_witness :
    (set_polling_interval 60 120 = (120, Except.ok ()) ∧
      borrow_interval (set_polling_interval 60 120).1 = 120) ∧
    (set_polling_interval 60 5).1 = 60 ∧
    (set_polling_interval 60 601).2 =
      Except.error "Polling interval must be between 10 and 600 seconds" :=
  ⟨(set_polling_interval_bounds 60 120).1 ⟨by omega, by omega⟩,
   ((set_polling_interval_bounds 60 5).2 (Or.inl (by omega))).1,
   ((set_polling_interval_bounds 60 601).2 (Or.inr (by omega))).2⟩

/-- Claim C3: `is_token_expired` is true exactly when `now_ms + 30000 ≥
expires_at` (the 30-second safety margin; the hypothesis rules out the `u64`
wrap, unreachable for millisecond clock readings), and a cycle whose
credential is inside the margin emits only `token-status = "expired"`,
reaches neither fetcher's call site, and leaves the shared state untouched. -/
theorem token_expiry_margin (now_ms expires_at : Nat) (env : FetchEnv)
    (st : AppState) (t : TokenInfo) :
    (now_ms + 30000 < u64Mod →
      (is_token_expired now_ms expires_at = true ↔ now_ms + 30000 ≥ expires_at)) ∧
    (env.token_read = Except.ok t →
      is_token_expired env.now_ms t.expires_at = true →
      do_fetch env st =
        { state := st, events := [Event.tokenStatus "expired"],
          primary_invoked := false, secondary_invoked := false }) := by
  constructor
  · intro h
    rw [is_token_expired, Nat.mod_eq_of_lt h]
    simp [ge_iff_le]
  · intro h hexp
    exact do_fetch_expired env st t h hexp

/-- Witness for C3: with `now_ms = 1000000` and expiry `now + 10000` ms
(inside the margin), the check fires and the cycle aborts with
`token-status = "expired"` and no fetcher invocation. -/
theorem token_expiry_margin_witness :
    (is_token_expired 1000000 1010000 = true ↔ 1000000 + 30000 ≥ 1010000) ∧
    do_fetch expired_env initial_app_state =
      { state := initial_app_state, events := [Event.tokenStatus "expired"],
        primary_invoked := false, secondary_invoked := false } :=
  ⟨(token_expiry_margin 1000000 1010000 expired_env initial_app_state
      near_expiry_token).1 (by norm_num [u64Mod]),
   (token_expiry_margin 1000000 1010000 expired_env initial_app_state
      near_expiry_token).2 rfl rfl⟩

/-- Claim C4: degraded mode. Past the expiry check, an absent secondary
configuration or a failed secondary fetch yields `None` and never aborts the
cycle (the primary call site is still reached); and when the primary fetch
fails while a secondary snapshot is available, the cycle emits
`token-status = "fetch_error"` followed by the secondary snapshot as a
separate `copilot-only-update`. -/
theorem degraded_mode (env : FetchEnv) (st : AppState) (t : TokenInfo)
    (h : env.token_read = Except.ok t)
    (hexp : is_token_expired env.now_ms t.expires_at = false) :
    ((env.github_config = none ∨ resultIsOk env.copilot_result = false) →
      secondary_result env = none ∧ (do_fetch env st).primary_invoked = true) ∧
    (∀ e c, env.claude_result = Except.error e → secondary_result env = some c →
      (do_fetch env st).events =
        [Event.tokenStatus "fetch_error", Event.copilotOnlyUpdate c]) := by
  constructor
  · intro hsec
    constructor
    · rcases hsec with hnone | hfail
      · simp [secondary_result, hnone]
      · cases hcop : env.copilot_result with
        | ok c => rw [hcop] at hfail; simp [resultIsOk] at hfail
        | error e =>
          cases hgh : env.github_config with
          | none => simp [secondary_result, hgh]
          | some gh => simp [secondary_result, hgh, hcop, resultOk]
    · cases hc : env.claude_result with
      | ok d => rw [do_fetch_primary_ok env st t d h hexp hc]
      | error e => rw [do_fetch_primary_err env st t e h hexp hc]
  · intro e c hc hsec
    rw [do_fetch_primary_err env st t e h hexp hc, hsec]

/-- Witness for C4: with both fetchers failing the secondary result is
swallowed to `None` and the primary call site is still reached; with only
the primary failing, `token-status = "fetch_error"` and the secondary-only
update are emitted. -/
theorem degraded_mode_witness :
    (secondary_result both_fail_env = none ∧
      (do_fetch both_fail_env initial_app_state).primary_invoked = true) ∧
    (do_fetch degraded_env initial_app_state).events =
      [Event.tokenStatus "fetch_error", Event.copilotOnlyUpdate sample_copilot] :=
  ⟨(degraded_mode both_fail_env initial_app_state live_token rfl rfl).1
     (Or.inr rfl),
   (degraded_mode degraded_env initial_app_state live_token rfl rfl).2
     "Claude API error" sample_copilot rfl rfl⟩

/-- Claim C5: credential-error atomicity. A cycle whose credential read
fails emits exactly `token-status = "error"` and nothing else, reaches
neither fetcher's call site, and leaves the shared state unchanged; after
such a first-ever cycle `get_usage` still fails with "No usage data
available yet". -/
theorem credential_error_atomic (env : FetchEnv) (st : AppState) (e : String)
    (h : env.token_read = Except.error e) :
    do_fetch env st =
      { state := st, events := [Event.tokenStatus "error"],
        primary_invoked := false, secondary_invoked := false } ∧
    get_usage (do_fetch env initial_app_state).state =
      Except.error "No usage data available yet" := by
  refine ⟨do_fetch_cred_error env st e h, ?_⟩
  rw [do_fetch_cred_error env initial_app_state e h]
  rfl

/-- Witness for C5: the concrete credential-error cycle. -/
theorem credential_error_atomic_witness :
    do_fetch cred_error_env initial_app_state =
      { state := initial_app_state, events := [Event.tokenStatus "error"],
        primary_invoked := false, secondary_invoked := false } ∧
    get_usage (do_fetch cred_error_env initial_app_state).state =
      Except.error "No usage data available yet" :=
  credential_error_atomic cred_error_env initial_app_state
    "Failed to read credentials" rfl

/-- Claim C6: combiner pass-through. Constructing the combined snapshot from
`(p, None)` gives `copilot = None`; from `(p, Some s)` gives
`copilot = Some s` with `s` unchanged; in both cases the primary field is
`p` unchanged — a pure constructor with no failure mode. -/
theorem combine_passthrough (p : UsageData) (s : CopilotUsageData) :
    (combine p none).copilot = none ∧
    (combine p (some s)).copilot = some s ∧
    (combine p none).claude = p ∧
    (combine p (some s)).claude = p :=
  ⟨rfl, rfl, rfl, rfl⟩

/-- The parsed GitHub billing response used by the C7 witness: two usage
items totalling 120 gross requests. -/
def sample_gh_items : List Json :=
  [Json.obj [("model", Json.str "gpt"), ("grossQuantity", Json.num 70)],
   Json.obj [("model", Json.str "claude"), ("grossQuantity", Json.num 50)]]

/-- The enclosing response object holding `sample_gh_items`. -/
def sample_gh_response : Json :=
  Json.obj [("usageItems", Json.arr sample_gh_items)]

/-- Claim C7: the secondary utilization formula. Whenever the response has a
`usageItems` array, `fetch_copilot_usage` succeeds — for every
`monthly_limit`, a zero or negative limit included, there is no guard — and
returns exactly `utilization = total_requests / monthly_limit * 100` with
`total_requests` derived from the response's items. -/
theorem copilot_utilization (api_response : Json) (monthly_limit : Rat)
    (resets_at : String) (items : List Json)
    (h : (api_response.index "usageItems").as_array = some items) :
    fetch_copilot_usage api_response monthly_limit resets_at =
      Except.ok
        { total_requests := (accumulate_usage_items items).1,
          monthly_limit := monthly_limit,
          utilization := (accumulate_usage_items items).1 / monthly_limit * 100,
          resets_at := resets_at,
          items := (accumulate_usage_items items).2 } := by
  simp [fetch_copilot_usage, h]

/-- Witness for C7: `totalRequests = 120` with `monthlyLimit = 300` yields
utilization exactly 40, and a zero limit is not rejected. -/
theorem copilot_utilization_witness :
    fetch_copilot_usage sample_gh_response 300 "2026-11-01T00:00:00+00:00" =
      Except.ok
        { total_requests := 120, monthly_limit := 300, utilization := 40,
          resets_at := "2026-11-01T00:00:00+00:00",
          items := [{ model := "gpt", gross_quantity := 70 },
                    { model := "claude", gross_quantity := 50 }] } ∧
    resultIsOk (fetch_copilot_usage sample_gh_response 0 "r") = true := by
  constructor
  · rw [copilot_utilization sample_gh_response 300 "2026-11-01T00:00:00+00:00"
        sample_gh_items rfl]
    simp [sample_gh_items, accumulate_usage_items, Json.index, Json.as_f64,
      Json.as_str, List.find?_cons]
    norm_num
  · rw [copilot_utilization sample_gh_response 0 "r" sample_gh_items rfl]
    rfl

/-- Claim C8: watcher debounce. A settled burst of `n ≥ 1` raw modify/create
events is consumed whole by one watcher-loop iteration, which calls
`refresh_notify.notify_one()` exactly once and leaves no event queued. -/
theorem watcher_debounce (n : Nat) (h : 1 ≤ n) :
    watcher_iteration (List.replicate n ()) = some (1, []) := by
  cases n with
  | zero => omega
  | succ m =>
    rw [List.replicate_succ, watcher_iteration, drain_burst_eq_nil]

/-- Witness for C8: a burst of three raw events produces exactly one
`notify_one` call. -/
theorem watcher_debounce_witness :
    watcher_iteration (List.replicate 3 ()) = some (1, []) :=
  watcher_debounce 3 (by omega)

/-- Claim C9: interval-change transition. When the `interval_rx.changed()`
arm of the three-way wait fires, the iteration runs no fetch, emits nothing,
leaves the state untouched, and the next wait reads the channel's new value;
only the timer-elapse and refresh-signal arms run `do_fetch`. -/
theorem interval_change_no_fetch (env : FetchEnv) (st : AppState)
    (new_value : Nat) :
    (polling_step env st new_value Trigger.intervalChanged).fetched = false ∧
    (polling_step env st new_value Trigger.intervalChanged).state = st ∧
    (polling_step env st new_value Trigger.intervalChanged).events = [] ∧
    (polling_step env st new_value Trigger.intervalChanged).next_secs =
      borrow_interval new_value ∧
    (∀ trig, (polling_step env st new_value trig).fetched = true ↔
      (trig = Trigger.timerElapsed ∨ trig = Trigger.refreshSignal)) := by
  refine ⟨rfl, rfl, rfl, rfl, fun trig => ?_⟩
  cases trig <;> simp [polling_step]

/-- The numeric `grossQuantity` of a usage item, when it has one. -/
def item_quantity (item : Json) : Option Rat :=
  (item.index "grossQuantity").as_f64

/-- The `CopilotUsageItem` an item contributes to the returned list: present
exactly when the item has both a numeric `grossQuantity` and a string
`model`. -/
def item_entry (item : Json) : Option CopilotUsageItem :=
  match (item.index "grossQuantity").as_f64, (item.index "model").as_str with
  | some q, some m => some { model := m, gross_quantity := q }
  | _, _ => none

/-- Closed form of the accumulation loop from any starting accumulator. -/
theorem accumulate_usage_items_closed (items : List Json) (total : Rat)
    (acc : List CopilotUsageItem) :
    items.foldl
      (fun acc item =>
        match (item.index "grossQuantity").as_f64 with
        | none => acc
        | some quantity =>
          let t := acc.1 + quantity
          match (item.index "model").as_str with
          | some model =>
            (t, acc.2 ++ [{ model := model, gross_quantity := quantity }])
          | none => (t, acc.2))
      (total, acc) =
      (total + (items.filterMap item_quantity).sum,
       acc ++ items.filterMap item_entry) := by
  induction items generalizing total acc with
  | nil => simp
  | cons item rest ih =>
    cases hq : (item.index "grossQuantity").as_f64 with
    | none =>
      simp only [List.foldl_cons, hq, List.filterMap_cons, item_quantity,
        item_entry]
      exact ih total acc
    | some q =>
      cases hm : (item.index "model").as_str with
      | none =>
        simp only [List.foldl_cons, hq, hm, List.filterMap_cons, item_quantity,
          item_entry]
        rw [List.sum_cons, ← add_assoc]
        exact ih (total + q) acc
      | some m =>
        simp only [List.foldl_cons, hq, hm, List.filterMap_cons, item_quantity,
          item_entry]
        have h := ih (total + q) (acc ++ [{ model := m, gross_quantity := q }])
        rw [List.append_assoc, List.singleton_append] at h
        rw [List.sum_cons, ← add_assoc]
        exact h

/-- Claim C10: in `fetch_copilot_usage`'s loop, an item without a numeric
`grossQuantity` is skipped entirely; one with a numeric `grossQuantity` but
no string `model` is added to `total_requests` yet omitted from the returned
items; hence `total_requests` is the sum of `grossQuantity` over the items
that have one — which the concrete burst shows can strictly exceed the sum
of `gross_quantity` over the items actually returned. -/
theorem usage_items_accounting (items : List Json) :
    (accumulate_usage_items items).1 = (items.filterMap item_quantity).sum ∧
    (accumulate_usage_items items).2 = items.filterMap item_entry ∧
    (((accumulate_usage_items
        [Json.obj [("grossQuantity", Json.num 5)]]).2.map
          (fun i => i.gross_quantity)).sum <
      (accumulate_usage_items [Json.obj [("grossQuantity", Json.num 5)]]).1) := by
  refine ⟨?_, ?_, ?_⟩
  · rw [accumulate_usage_items, accumulate_usage_items_closed items 0 []]
    simp
  · rw [accumulate_usage_items, accumulate_usage_items_closed items 0 []]
    simp
  · simp [accumulate_usage_items, Json.index, Json.as_f64, Json.as_str,
      List.find?_cons]
